import Mathlib

/-!
Verification of the GPS realtime tracker session-relay proxy (server.js) and
of the browser WebSocket client (public/js/websocket.js, public/js/config.js).

The server is a Node/Express proxy in front of a Traccar instance.  The model
below is a shallow embedding: the single mutable `sessionCookie` becomes an
explicit state component, the network is an explicit stream of outcomes
(one entry consumed per fetch or per authentication attempt), and the
recursive retry in proxyToTraccar is modelled with explicit fuel, `none`
meaning that the computation did not finish within the given fuel (or that
the environment stream was exhausted).
-/

namespace GpsTracker

/-- `containsSub s t` holds when the character list `t` occurs contiguously
inside `s` (the empty needle occurs everywhere). -/
def containsSub (s t : List Char) : Bool :=
  t.isPrefixOf s ||
    match s with
    | [] => false
    | _ :: s2 => containsSub s2 t

/-- Substring test with JavaScript `String.prototype.includes` semantics. -/
def jsIncludes (s t : String) : Bool :=
  containsSub s.data t.data

/-- JavaScript `cookie.split(";")[0]`: everything before the first `;`
(the whole string when there is none). -/
def firstCookiePart (c : String) : String :=
  String.mk (c.data.takeWhile (fun ch => ch ≠ ';'))

/-- JavaScript `text.substring(0, 200)`: the first 200 characters. -/
def excerpt200 (s : String) : String :=
  String.mk (s.data.take 200)

/-- Outcome of the upstream login request `POST /api/session` as seen by
authenticateTraccar: HTTP status and the raw set-cookie header list
(`none` when the upstream sent no set-cookie header). -/
structure AuthResponse where
  status : Nat
  setCookieHeader : Option (List String)
deriving Repr, DecidableEq

/-- `authenticateTraccar` from server.js, as a function of the current
`sessionCookie` and of the outcome of the login fetch (`none` = the fetch
threw, i.e. a transport error).  Returns the boolean the function returns
together with the new value of `sessionCookie`.  The cookie is assigned
only on the success path: status 2xx (node-fetch `response.ok`) and a
present set-cookie header, in which case the stored cookie is the join of
the first `;`-segment of each cookie, separated by `"; "`. -/
def authenticateTraccar (cookie : Option String) :
    Option AuthResponse → Bool × Option String
  | none => (false, cookie)
  | some r =>
    if 200 ≤ r.status ∧ r.status < 300 then
      match r.setCookieHeader with
      | some cookies =>
          (true, some (String.intercalate "; " (cookies.map firstCookiePart)))
      | none => (false, cookie)
    else (false, cookie)

/-- One upstream REST response as consumed by proxyToTraccar: HTTP status,
content-type header (`none` when absent), body text, and whether the body
parses as JSON (`response.json()` succeeding). -/
structure UpstreamResponse where
  status : Nat
  contentType : Option String
  body : String
  jsonParses : Bool
deriving Repr, DecidableEq

/-- What proxyToTraccar sends back to the browser: either `res.json(data)`
(HTTP 200 with the upstream body passed through) or an error response
`res.status(s).json (error := msg)`. -/
inductive ProxyResult where
  | ok (body : String)
  | err (status : Nat) (msg : String)
deriving Repr, DecidableEq

/-- The state threaded through a proxy call: the process-wide
`sessionCookie`, the stream of login outcomes (one consumed per
authenticateTraccar call), the stream of upstream REST outcomes (one
consumed per upstream fetch; `none` = the fetch threw), and the server log
of response-body excerpts written on content-type mismatches. -/
structure ProxyState where
  cookie : Option String
  auths : List (Option AuthResponse)
  fetches : List (Option UpstreamResponse)
  log : List String
deriving Repr, DecidableEq

/-- JavaScript truthiness of the `sessionCookie` variable: `null` and the
empty string are falsy. -/
def cookieTruthy : Option String → Bool
  | none => false
  | some s => !s.isEmpty

/-- The content-type guard of proxyToTraccar:
`!contentType || !contentType.includes("application/json")` routes to the
502 branch; this predicate is the complement (the JSON path). -/
def contentTypeJson : Option String → Bool
  | none => false
  | some ct => jsIncludes ct "application/json"

/-- `proxyToTraccar` from server.js with explicit fuel for its recursive
retry.  Behaviour, in source order: if `sessionCookie` is falsy,
authenticate first and answer 503 on failure; then fetch upstream with the
cookie attached; a thrown fetch is caught and answered 500; a 401 triggers
re-authentication and, on success, a recursive call (retry), on failure a
503; a non-JSON content type logs a 200-character body excerpt and answers
502; otherwise the JSON body is passed through (a body that fails to parse
as JSON throws and is caught, yielding 500).  `none` = out of fuel or the
environment stream was exhausted. -/
def proxyFetchStep (recur : ProxyState → Option (ProxyResult × ProxyState))
    (st2 : ProxyState) : Option (ProxyResult × ProxyState) :=
  match st2.fetches with
  | [] => none
  | f :: rest =>
    let st3 : ProxyState := { st2 with fetches := rest }
    match f with
    | none => some (ProxyResult.err 500 "proxy error", st3)
    | some resp =>
      if resp.status = 401 then
        match st3.auths with
        | [] => none
        | a :: arest =>
          let ares := authenticateTraccar st3.cookie a
          let st4 : ProxyState := { st3 with cookie := ares.2, auths := arest }
          if ares.1 then recur st4
          else some (ProxyResult.err 503 "Unable to reconnect to Traccar", st4)
      else if contentTypeJson resp.contentType then
        if resp.jsonParses then some (ProxyResult.ok resp.body, st3)
        else some (ProxyResult.err 500 "proxy error", st3)
      else
        some (ProxyResult.err 502 "Traccar returned non-JSON response",
              { st3 with log := st3.log ++ [excerpt200 resp.body] })

/-- The entry point of proxyToTraccar: authenticate first when the cookie
is falsy (503 on failure), then run the fetch step. -/
def proxyToTraccar : Nat → ProxyState → Option (ProxyResult × ProxyState)
  | 0, _ => none
  | fuel + 1, st =>
    if cookieTruthy st.cookie then proxyFetchStep (proxyToTraccar fuel) st
    else
      match st.auths with
      | [] => none
      | a :: rest =>
        let ares := authenticateTraccar st.cookie a
        let st1 : ProxyState := { st with cookie := ares.2, auths := rest }
        if ares.1 then proxyFetchStep (proxyToTraccar fuel) st1
        else some (ProxyResult.err 503 "Unable to connect to Traccar", st1)

-- Sample outcomes used in concrete runs.
/-- A successful login outcome producing the session cookie "JSESSIONID=abc". -/
def authGood : Option AuthResponse :=
  some { status := 200, setCookieHeader := some ["JSESSIONID=abc; Path=/"] }

/-- A failed login outcome (upstream answers 401 to the login itself). -/
def authBad : Option AuthResponse :=
  some { status := 401, setCookieHeader := none }

/-- An upstream 401 (session rejected). -/
def resp401 : Option UpstreamResponse :=
  some { status := 401, contentType := some "application/json",
         body := "", jsonParses := true }

/-- A successful upstream JSON response with the given body. -/
def respJson (body : String) : Option UpstreamResponse :=
  some { status := 200, contentType := some "application/json",
         body := body, jsonParses := true }

/-- An upstream 200 whose body is HTML, not JSON. -/
def respHtml (body : String) : Option UpstreamResponse :=
  some { status := 200, contentType := some "text/html",
         body := body, jsonParses := false }

/-! ## Request validator for GET /api/reports/route -/

/-- JavaScript truthiness of a query-string value: `undefined` (absent) and
the empty string are falsy, every other string is truthy. -/
def queryTruthy : Option String → Bool
  | none => false
  | some s => !s.isEmpty

/-- White space skipped by JavaScript parseInt before the numeral
(ASCII white space and no-break space; the more exotic Unicode spaces are
irrelevant to query strings). -/
def jsWhitespace (c : Char) : Bool :=
  c = ' ' ∨ c = '\t' ∨ c = '\n' ∨ c = '\r' ∨
    c = Char.ofNat 11 ∨ c = Char.ofNat 12 ∨ c = Char.ofNat 160

/-- Value of a decimal digit character, `none` for non-digits. -/
def decDigit (c : Char) : Option Nat :=
  if '0' ≤ c ∧ c ≤ '9' then some (c.toNat - '0'.toNat) else none

/-- Value of a hexadecimal digit character, `none` for non-digits. -/
def hexDigit (c : Char) : Option Nat :=
  if '0' ≤ c ∧ c ≤ '9' then some (c.toNat - '0'.toNat)
  else if 'a' ≤ c ∧ c ≤ 'f' then some (c.toNat - 'a'.toNat + 10)
  else if 'A' ≤ c ∧ c ≤ 'F' then some (c.toNat - 'A'.toNat + 10)
  else none

/-- Reads the longest prefix of digits in the given base; `none` when the
prefix is empty (this is parseInt producing NaN). -/
def parseDigits (digit : Char → Option Nat) (base : Nat) (cs : List Char) :
    Option Nat :=
  let ds := cs.takeWhile (fun c => (digit c).isSome)
  if ds.isEmpty then none
  else some (ds.foldl (fun acc c => acc * base + (digit c).getD 0) 0)

/-- The unsigned part of JavaScript parseInt with no radix argument: a
`0x`/`0X` prefix switches to base 16, otherwise the longest decimal-digit
prefix is read; `none` when no digit is found. -/
def parseIntCore (cs : List Char) : Option Nat :=
  match cs with
  | '0' :: 'x' :: rest => parseDigits hexDigit 16 rest
  | '0' :: 'X' :: rest => parseDigits hexDigit 16 rest
  | _ => parseDigits decDigit 10 cs

/-- JavaScript `parseInt(s)`: skip leading white space, read an optional
sign, then the longest integer-literal prefix; `none` models NaN.
Trailing junk after the numeral is ignored, so "7x" parses to 7. -/
def jsParseInt (s : String) : Option Int :=
  let cs := s.data.dropWhile jsWhitespace
  match cs with
  | '-' :: rest => (parseIntCore rest).map (fun n => -(n : Int))
  | '+' :: rest => (parseIntCore rest).map (fun n => (n : Int))
  | rest => (parseIntCore rest).map (fun n => (n : Int))

/-- What the GET /api/reports/route handler does with a request: answer 400
with a message, or fall through to proxyToTraccar. -/
inductive RouteResult where
  | badRequest (msg : String)
  | proxy
deriving Repr, DecidableEq

/-- The maximum history range accepted by the validator:
7 * 24 * 60 * 60 * 1000 milliseconds. -/
def maxRange : Int := 7 * 24 * 60 * 60 * 1000

/-- The validation chain of the GET /api/reports/route handler, in source
order with early returns.  `parseDate` models `new Date(s).getTime()`
(`none` = NaN, otherwise epoch milliseconds) and `now` models
`new Date()` at handler time; both are environment inputs.  The three
query values are `none` when absent.  Checks: all three truthy, parseInt
of deviceId not NaN, both dates parse, from strictly before to, range at
most `maxRange`, to not in the future. -/
def reportsRouteHandler (parseDate : String → Option Int) (now : Int)
    (deviceId fromS toS : Option String) : RouteResult :=
  if !queryTruthy deviceId || !queryTruthy fromS || !queryTruthy toS then
    RouteResult.badRequest "Missing required parameters: deviceId, from, to"
  else if (jsParseInt (deviceId.getD "")).isNone then
    RouteResult.badRequest "Invalid deviceId format"
  else
    match parseDate (fromS.getD ""), parseDate (toS.getD "") with
    | some fromMs, some toMs =>
      if fromMs ≥ toMs then
        RouteResult.badRequest "Start date must be before end date"
      else if toMs - fromMs > maxRange then
        RouteResult.badRequest "Date range cannot exceed 7 days"
      else if toMs > now then
        RouteResult.badRequest "End date cannot be in the future"
      else RouteResult.proxy
    | _, _ => RouteResult.badRequest "Invalid date format. Use ISO 8601 format."

/-- A concrete date environment used for concrete runs: it knows the two
timestamps 2024-01-01T00:00:00Z and 2024-01-01T08:00:00Z. -/
def sampleParseDate (s : String) : Option Int :=
  if s = "2024-01-01T00:00:00Z" then some 1704067200000
  else if s = "2024-01-01T08:00:00Z" then some 1704096000000
  else none

/-- Modelled from the spec words "the deviceId string is an integer": an
optional sign followed by one or more decimal digits and nothing else.
Used only to compare the spec claim with the parseInt-based check the
source performs. -/
def isIntegerString (s : String) : Bool :=
  let cs := match s.data with
    | '-' :: rest => rest
    | '+' :: rest => rest
    | rest => rest
  !cs.isEmpty && cs.all (fun c => decide ('0' ≤ c ∧ c ≤ '9'))

/-! ## Heartbeat sweep (LivenessMonitor) -/

/-- Events seen by one browser connection between its creation and its
termination: a pong arriving from the peer, or one tick of the 30-second
heartbeat sweep. -/
inductive HBEvent where
  | pong
  | sweep
deriving Repr, DecidableEq

/-- The per-connection heartbeat state: the ws.isAlive flag and whether
ws.terminate() has been called by the sweep. -/
structure ClientConn where
  isAlive : Bool
  terminated : Bool
deriving Repr, DecidableEq

/-- A freshly accepted connection: the handler sets isAlive = true. -/
def freshConn : ClientConn := { isAlive := true, terminated := false }

/-- One event against one connection.  A terminated connection is out of
wss.clients, so nothing further happens to it.  The sweep terminates a
connection whose isAlive is false and otherwise clears the flag (and
pings); a pong sets the flag. -/
def hbStep (c : ClientConn) : HBEvent → ClientConn
  | HBEvent.pong => if c.terminated then c else { c with isAlive := true }
  | HBEvent.sweep =>
    if c.terminated then c
    else if c.isAlive = false then { c with terminated := true }
    else { c with isAlive := false }

/-- A connection processing a sequence of events. -/
def runHB (c : ClientConn) (es : List HBEvent) : ClientConn :=
  es.foldl hbStep c

/-- The trace condition under which the sweep reaps a connection: some
sweep finds the flag still clear, i.e. the trace has two sweeps with no
pong strictly between them (the flag argument records whether the previous
event leaving the flag clear was a sweep). -/
def missedTwo : Bool → List HBEvent → Bool
  | _, [] => false
  | _, HBEvent.pong :: es => missedTwo false es
  | missed, HBEvent.sweep :: es => missed || missedTwo true es

/-! ## Bridged connection pair (RealtimeBridge) -/

/-- Lifecycle events on a bridged pair: close or error on the browser
socket, close or error on the upstream Traccar socket. -/
inductive BridgeEvent where
  | clientClose
  | clientError
  | upstreamClose
  | upstreamError
deriving Repr, DecidableEq

/-- The observable state of one bridged pair: whether each socket is still
open, and the server error log. -/
structure BridgeState where
  clientOpen : Bool
  upstreamOpen : Bool
  errorLog : List String
deriving Repr, DecidableEq

/-- A freshly bridged pair. -/
def bridgedPair : BridgeState :=
  { clientOpen := true, upstreamOpen := true, errorLog := [] }

/-- The four event handlers registered on a bridged pair, one step each:
clientWs close -> traccarWs.close(); clientWs error -> log and
traccarWs.close(); traccarWs close -> clientWs.close(); traccarWs error ->
log only (the ws library then emits close on that socket, a separate
upstreamClose event).  A close or error event also means the emitting
socket itself is no longer open. -/
def bridgeStep (s : BridgeState) : BridgeEvent → BridgeState
  | BridgeEvent.clientClose =>
    { s with clientOpen := false, upstreamOpen := false }
  | BridgeEvent.clientError =>
    { s with upstreamOpen := false,
             errorLog := s.errorLog ++ ["Client WebSocket error"] }
  | BridgeEvent.upstreamClose =>
    { s with upstreamOpen := false, clientOpen := false }
  | BridgeEvent.upstreamError =>
    { s with errorLog := s.errorLog ++ ["Traccar WebSocket error"] }

/-- A bridged pair processing a sequence of lifecycle events. -/
def runBridge (s : BridgeState) (es : List BridgeEvent) : BridgeState :=
  es.foldl bridgeStep s

/-! ## Upstream message forwarding (traccarWs message handler)

The handler runs `clientWs.send(data.toString())`: the received bytes are
decoded as UTF-8 text (WHATWG decoding, malformed input mapped to U+FFFD)
and the resulting string is sent as a text frame, whose payload is the
UTF-8 encoding of that string.  Bytes are modelled as natural numbers
below 256. -/

/-- UTF-8 encoding of one code point (the scalar value of a Char). -/
def utf8EncodeChar (v : Nat) : List Nat :=
  if v < 0x80 then [v]
  else if v < 0x800 then [0xC0 + v / 64, 0x80 + v % 64]
  else if v < 0x10000 then
    [0xE0 + v / 4096, 0x80 + v / 64 % 64, 0x80 + v % 64]
  else
    [0xF0 + v / 262144, 0x80 + v / 4096 % 64, 0x80 + v / 64 % 64,
     0x80 + v % 64]

/-- UTF-8 encoding of a string given as its character list. -/
def utf8Encode : List Char → List Nat
  | [] => []
  | c :: cs => utf8EncodeChar c.toNat ++ utf8Encode cs

/-- Decoder state in the middle of a multi-byte sequence: how many
continuation bytes are still needed, the accumulated value, and the
admissible range of the next byte. -/
structure Utf8Pending where
  needed : Nat
  acc : Nat
  lo : Nat
  hi : Nat
deriving Repr, DecidableEq

/-- WHATWG UTF-8 decoding, handling of a byte in the initial state:
ASCII is emitted directly, a valid lead byte opens a pending sequence
(with the tightened second-byte ranges that exclude overlong forms and
surrogates), anything else is malformed and emits U+FFFD. -/
def utf8InitByte (b : Nat) : List Nat × Option Utf8Pending :=
  if b ≤ 0x7F then ([b], none)
  else if 0xC2 ≤ b ∧ b ≤ 0xDF then ([], some ⟨1, b - 0xC0, 0x80, 0xBF⟩)
  else if b = 0xE0 then ([], some ⟨2, 0, 0xA0, 0xBF⟩)
  else if b = 0xED then ([], some ⟨2, 13, 0x80, 0x9F⟩)
  else if 0xE1 ≤ b ∧ b ≤ 0xEF then ([], some ⟨2, b - 0xE0, 0x80, 0xBF⟩)
  else if b = 0xF0 then ([], some ⟨3, 0, 0x90, 0xBF⟩)
  else if b = 0xF4 then ([], some ⟨3, 4, 0x80, 0x8F⟩)
  else if 0xF1 ≤ b ∧ b ≤ 0xF3 then ([], some ⟨3, b - 0xF0, 0x80, 0xBF⟩)
  else ([0xFFFD], none)

/-- WHATWG UTF-8 decoding, one byte in any state: in a pending sequence an
in-range byte extends the accumulator (emitting the code point when the
sequence completes), an out-of-range byte emits U+FFFD and is reprocessed
as a fresh byte. -/
def utf8Step (st : Option Utf8Pending) (b : Nat) :
    List Nat × Option Utf8Pending :=
  match st with
  | none => utf8InitByte b
  | some p =>
    if p.lo ≤ b ∧ b ≤ p.hi then
      if p.needed = 1 then ([p.acc * 64 + (b - 0x80)], none)
      else ([], some ⟨p.needed - 1, p.acc * 64 + (b - 0x80), 0x80, 0xBF⟩)
    else
      let r := utf8InitByte b
      (0xFFFD :: r.1, r.2)

/-- WHATWG UTF-8 decoding of a byte list into code points; a sequence
still pending at the end of input emits one U+FFFD. -/
def utf8DecodeLoop : Option Utf8Pending → List Nat → List Nat
  | st, [] => (match st with | none => [] | some _ => [0xFFFD])
  | st, b :: rest =>
    let r := utf8Step st b
    r.1 ++ utf8DecodeLoop r.2 rest

/-- `Buffer.prototype.toString("utf8")`: decode the bytes and build the
string (every code point the decoder emits is a valid scalar value, so
Char.ofNat is exact here). -/
def bufferToString (bytes : List Nat) : List Char :=
  (utf8DecodeLoop none bytes).map Char.ofNat

/-- The traccarWs message handler: when clientWs.readyState is OPEN the
payload delivered to the browser is the UTF-8 encoding of
data.toString(); otherwise the message is dropped. -/
def forwardMessage (clientReadyOpen : Bool) (data : List Nat) :
    Option (List Nat) :=
  if clientReadyOpen then some (utf8Encode (bufferToString data)) else none

/-! ## Browser-side reconnection (WebSocketManager, public/js/websocket.js
with RECONNECT_INTERVAL from public/js/config.js) -/

/-- `maxReconnectAttempts` of WebSocketManager. -/
def maxReconnectAttempts : Nat := 10

/-- `CONFIG.RECONNECT_INTERVAL` (milliseconds) from config.js. -/
def RECONNECT_INTERVAL : Nat := 5000

/-- The reconnect bookkeeping of WebSocketManager: the attempt counter and
the delay of the reconnect scheduled by the last `_scheduleReconnect` call
(`none` when it scheduled nothing). -/
structure WSManagerState where
  reconnectAttempts : Nat
  scheduledDelay : Option Nat
deriving Repr, DecidableEq

/-- `_scheduleReconnect`: at or above `maxReconnectAttempts` nothing is
scheduled; otherwise the counter is incremented and a reconnect is
scheduled after min(RECONNECT_INTERVAL * attempts, 30000) ms. -/
def scheduleReconnect (st : WSManagerState) : WSManagerState :=
  if st.reconnectAttempts ≥ maxReconnectAttempts then
    { st with scheduledDelay := none }
  else
    { reconnectAttempts := st.reconnectAttempts + 1,
      scheduledDelay :=
        some (min (RECONNECT_INTERVAL * (st.reconnectAttempts + 1)) 30000) }

/-- The socket.onopen handler: a successful connection resets the attempt
counter to zero. -/
def handleOpen (st : WSManagerState) : WSManagerState :=
  { st with reconnectAttempts := 0 }

/-! # Theorems -/

/-- Helper: a successful login with `authGood` always installs the cookie
JSESSIONID=abc, whatever cookie was stored before. -/
theorem authGood_result (ck : Option String) :
    authenticateTraccar ck authGood = (true, some "JSESSIONID=abc") := rfl

/-- Helper: a login with `authBad` fails and leaves the cookie alone. -/
theorem authBad_result (ck : Option String) :
    authenticateTraccar ck authBad = (false, ck) := rfl

/-- C10: authenticateTraccar modifies the stored session cookie only on
success; on every failure path (transport error, non-2xx status, missing
set-cookie header) the previously stored cookie is returned unchanged. -/
theorem authenticateTraccar_failure_frame (cookie : Option String)
    (r : Option AuthResponse)
    (h : (authenticateTraccar cookie r).1 = false) :
    (authenticateTraccar cookie r).2 = cookie := by
  cases r with
  | none => rfl
  | some resp =>
    by_cases hok : 200 ≤ resp.status ∧ resp.status < 300
    · cases hsc : resp.setCookieHeader with
      | some cookies => simp [authenticateTraccar, hok, hsc] at h
      | none => simp [authenticateTraccar, hok, hsc]
    · simp [authenticateTraccar, hok]

/-- Witness for C10 at a concrete failing login. -/
theorem authenticateTraccar_failure_frame_witness :
    (authenticateTraccar (some "tok") authBad).1 = false ∧
      (authenticateTraccar (some "tok") authBad).2 = some "tok" :=
  ⟨by decide, authenticateTraccar_failure_frame (some "tok") authBad (by decide)⟩

/-- C4: with no stored session cookie, proxyToTraccar authenticates before
any upstream call: on authentication failure the caller gets 503 "Unable
to connect to Traccar" and the upstream fetch stream is untouched (no
upstream call was attempted); on authentication success exactly one
authentication outcome has been consumed before the forwarding step runs
with the fresh cookie. -/
theorem proxy_no_token_auth_first (fuel : Nat) (cookie : Option String)
    (a : Option AuthResponse) (auths : List (Option AuthResponse))
    (fetches : List (Option UpstreamResponse)) (log : List String)
    (hc : cookieTruthy cookie = false) :
    ((authenticateTraccar cookie a).1 = false →
      proxyToTraccar (fuel + 1) ⟨cookie, a :: auths, fetches, log⟩ =
        some (ProxyResult.err 503 "Unable to connect to Traccar",
              ⟨(authenticateTraccar cookie a).2, auths, fetches, log⟩)) ∧
    ((authenticateTraccar cookie a).1 = true →
      proxyToTraccar (fuel + 1) ⟨cookie, a :: auths, fetches, log⟩ =
        proxyFetchStep (proxyToTraccar fuel)
          ⟨(authenticateTraccar cookie a).2, auths, fetches, log⟩) := by
  constructor <;> intro h <;> simp [proxyToTraccar, hc, h]

/-- Witness for C4: no cookie, the login fails, the answer is 503 and the
one queued upstream response is never consumed. -/
theorem proxy_no_token_auth_first_witness :
    cookieTruthy none = false ∧
    proxyToTraccar 1 ⟨none, [authBad], [respJson "D"], []⟩ =
      some (ProxyResult.err 503 "Unable to connect to Traccar",
            ⟨none, [], [respJson "D"], []⟩) :=
  ⟨by decide,
   (proxy_no_token_auth_first 0 none authBad [] [respJson "D"] []
      (by decide)).1 (by decide)⟩

/-- C5: a non-401 upstream response whose content type is not JSON is
answered 502 "Traccar returned non-JSON response"; a 200-character body
excerpt is appended to the server log, the authentication stream and the
cookie are untouched (no re-authentication) and no further fetch is
consumed (no retry). -/
theorem proxy_nonjson_502 (fuel : Nat) (cookie : Option String)
    (auths : List (Option AuthResponse)) (resp : UpstreamResponse)
    (fs : List (Option UpstreamResponse)) (log : List String)
    (hc : cookieTruthy cookie = true)
    (h401 : resp.status ≠ 401)
    (hct : contentTypeJson resp.contentType = false) :
    proxyToTraccar (fuel + 1) ⟨cookie, auths, some resp :: fs, log⟩ =
      some (ProxyResult.err 502 "Traccar returned non-JSON response",
            ⟨cookie, auths, fs, log ++ [excerpt200 resp.body]⟩) := by
  simp [proxyToTraccar, proxyFetchStep, hc, h401, hct]

/-- Witness for C5 at a concrete HTML error page from upstream. -/
theorem proxy_nonjson_502_witness :
    proxyToTraccar 1
      ⟨some "c", [authGood],
       [some { status := 200, contentType := some "text/html",
               body := "<html>boom</html>", jsonParses := false }], []⟩ =
      some (ProxyResult.err 502 "Traccar returned non-JSON response",
            ⟨some "c", [authGood], [], ["<html>boom</html>"]⟩) := by
  have h := proxy_nonjson_502 0 (some "c") [authGood]
    { status := 200, contentType := some "text/html",
      body := "<html>boom</html>", jsonParses := false }
    [] [] (by decide) (by decide) (by decide)
  exact h.trans (by decide)

/-- C1 counterexample: the session cookie is present and the upstream
answers 401 to the original call AND to the retried call, with both
re-authentications succeeding.  The claim requires the second 401 to be
surfaced as a 503 with no further retries; the code instead retries again
(the third queued upstream response is consumed — the final fetch stream
is empty) and returns it to the caller as a 200. -/
theorem proxy_second_401_retries_again :
    proxyToTraccar 5
      { cookie := some "c", auths := [authGood, authGood],
        fetches := [resp401, resp401, respJson "D"], log := [] } =
      some (ProxyResult.ok "D",
        { cookie := some "JSESSIONID=abc", auths := [],
          fetches := [], log := [] }) := by decide

/-- Helper for C1: with an upstream that keeps answering 401 while
re-authentication keeps succeeding, proxyToTraccar never returns within
any amount of fuel — the retry recursion is unbounded. -/
theorem proxy_always401_diverges (n : Nat) :
    ∀ (cookie : Option String), cookieTruthy cookie = true →
      ∀ log : List String,
      proxyToTraccar n
        ⟨cookie, List.replicate n authGood, List.replicate n resp401, log⟩ =
        none := by
  induction n with
  | zero => intro ck hc log; rfl
  | succ n ih =>
    intro ck hc log
    rw [List.replicate_succ, List.replicate_succ]
    simp only [proxyToTraccar, proxyFetchStep, hc, if_true, authGood_result,
      resp401]
    simpa using ih (some "JSESSIONID=abc") (by decide) log

/-- C1 amended: on an authorization-failure status the relay triggers one
re-authentication; a failed re-authentication is answered 503 "Unable to
reconnect to Traccar" with no further upstream call; a successful
re-authentication makes the relay retry the whole call again with the
fresh cookie — recursively, with no bound on the number of retries, so the
relay never returns while the upstream keeps answering 401 and
re-authentication keeps succeeding. -/
theorem proxy_401_retry_unbounded :
    (∀ (fuel : Nat) (cookie : Option String)
        (auths : List (Option AuthResponse))
        (fs : List (Option UpstreamResponse)) (log : List String),
      cookieTruthy cookie = true →
      proxyToTraccar (fuel + 1) ⟨cookie, authBad :: auths, resp401 :: fs, log⟩ =
        some (ProxyResult.err 503 "Unable to reconnect to Traccar",
              ⟨cookie, auths, fs, log⟩)) ∧
    (∀ (fuel : Nat) (cookie : Option String)
        (auths : List (Option AuthResponse))
        (fs : List (Option UpstreamResponse)) (log : List String),
      cookieTruthy cookie = true →
      proxyToTraccar (fuel + 1) ⟨cookie, authGood :: auths, resp401 :: fs, log⟩ =
        proxyToTraccar fuel ⟨some "JSESSIONID=abc", auths, fs, log⟩) ∧
    (∀ (n : Nat) (cookie : Option String), cookieTruthy cookie = true →
      ∀ log : List String,
      proxyToTraccar n
        ⟨cookie, List.replicate n authGood, List.replicate n resp401, log⟩ =
        none) := by
  refine ⟨?_, ?_, proxy_always401_diverges⟩
  · intro fuel cookie auths fs log hc
    simp [proxyToTraccar, proxyFetchStep, hc, authBad_result, resp401]
  · intro fuel cookie auths fs log hc
    simp [proxyToTraccar, proxyFetchStep, hc, authGood_result, resp401]

/-- Witness for the amended C1 at a concrete single 401 with a failing
re-authentication. -/
theorem proxy_401_retry_unbounded_witness :
    proxyToTraccar 3 ⟨some "c", [authBad], [resp401], []⟩ =
      some (ProxyResult.err 503 "Unable to reconnect to Traccar",
            ⟨some "c", [], [], []⟩) :=
  proxy_401_retry_unbounded.1 2 (some "c") [] [] [] (by decide)

/-- C9 counterexample: the reconnect delay is not strictly increasing in
the attempt number: the sixth and the seventh attempt both get the capped
delay min(5000 * n, 30000) = 30000 ms. -/
theorem backoff_plateau_counterexample :
    (scheduleReconnect
        { reconnectAttempts := 5, scheduledDelay := none }).scheduledDelay =
      some 30000 ∧
    (scheduleReconnect
        { reconnectAttempts := 6, scheduledDelay := none }).scheduledDelay =
      some 30000 := by decide

/-- Helper for C9: how one _scheduleReconnect call moves the counter. -/
theorem scheduleReconnect_attempts (st : WSManagerState) :
    (scheduleReconnect st).reconnectAttempts =
      if st.reconnectAttempts ≥ 10 then st.reconnectAttempts
      else st.reconnectAttempts + 1 := by
  unfold scheduleReconnect maxReconnectAttempts
  split <;> rfl

/-- Helper for C9: at or beyond the attempt bound nothing is scheduled. -/
theorem scheduleReconnect_capped (st : WSManagerState)
    (h : st.reconnectAttempts ≥ maxReconnectAttempts) :
    (scheduleReconnect st).scheduledDelay = none := by
  unfold scheduleReconnect
  rw [if_pos h]

/-- Helper for C9: after k consecutive failed connections starting from a
reset counter, the attempt counter reads min k 10. -/
theorem scheduleReconnect_iterate (k : Nat) :
    (scheduleReconnect^[k] ⟨0, none⟩).reconnectAttempts = min k 10 := by
  induction k with
  | zero => rfl
  | succ k ih =>
    rw [Function.iterate_succ_apply', scheduleReconnect_attempts, ih]
    split <;> omega

/-- C9 amended: the delay for attempt n is min(RECONNECT_INTERVAL * n,
30000) ms — non-decreasing in n and strictly increasing only below the
30000 ms cap; _scheduleReconnect increments the attempt counter and
schedules nothing at or beyond maxReconnectAttempts = 10, so a run of
consecutive failures schedules at most 10 automatic attempts and then
stops until a manual trigger; a successful connection resets the counter
to zero. -/
theorem backoff_amended :
    (∀ st : WSManagerState, st.reconnectAttempts < maxReconnectAttempts →
      scheduleReconnect st =
        { reconnectAttempts := st.reconnectAttempts + 1,
          scheduledDelay :=
            some (min (RECONNECT_INTERVAL * (st.reconnectAttempts + 1))
              30000) }) ∧
    (∀ st : WSManagerState, maxReconnectAttempts ≤ st.reconnectAttempts →
      scheduleReconnect st = { st with scheduledDelay := none }) ∧
    (∀ a b da db : Nat, a ≤ b →
      (scheduleReconnect ⟨a, none⟩).scheduledDelay = some da →
      (scheduleReconnect ⟨b, none⟩).scheduledDelay = some db →
      da ≤ db) ∧
    (∀ a b da db : Nat, a < b →
      (scheduleReconnect ⟨a, none⟩).scheduledDelay = some da →
      (scheduleReconnect ⟨b, none⟩).scheduledDelay = some db →
      db < 30000 → da < db) ∧
    (∀ k : Nat,
      (scheduleReconnect^[k] ⟨0, none⟩).reconnectAttempts = min k 10) ∧
    (∀ k : Nat, 10 ≤ k →
      (scheduleReconnect^[k + 1] ⟨0, none⟩).scheduledDelay = none) ∧
    (∀ st : WSManagerState, (handleOpen st).reconnectAttempts = 0) := by
  refine ⟨?_, ?_, ?_, ?_, scheduleReconnect_iterate, ?_, fun st => rfl⟩
  · intro st h
    unfold scheduleReconnect
    rw [if_neg (by omega)]
  · intro st h
    unfold scheduleReconnect
    rw [if_pos (by exact h)]
  · intro a b da db hab hda hdb
    unfold scheduleReconnect maxReconnectAttempts RECONNECT_INTERVAL
      at hda hdb
    split_ifs at hda hdb <;> simp_all <;> omega
  · intro a b da db hab hda hdb hcap
    unfold scheduleReconnect maxReconnectAttempts RECONNECT_INTERVAL
      at hda hdb
    split_ifs at hda hdb <;> simp_all <;> omega
  · intro k hk
    rw [Function.iterate_succ_apply']
    apply scheduleReconnect_capped
    rw [scheduleReconnect_iterate k]
    unfold maxReconnectAttempts
    omega

/-- Witness for the amended C9 at the first attempt. -/
theorem backoff_amended_witness :
    scheduleReconnect ⟨0, none⟩ =
      ({ reconnectAttempts := 1, scheduledDelay := some 5000 } :
        WSManagerState) :=
  (backoff_amended.1 ⟨0, none⟩ (by decide)).trans (by decide)

/-- Helper for C6: events after termination change nothing (the sweep has
removed the socket). -/
theorem runHB_of_terminated (es : List HBEvent) :
    ∀ c : ClientConn, c.terminated = true → runHB c es = c := by
  induction es with
  | nil => intro c h; rfl
  | cons e es ih =>
    intro c h
    have hstep : hbStep c e = c := by cases e <;> simp [hbStep, h]
    show runHB (hbStep c e) es = c
    rw [hstep]
    exact ih c h

/-- Helper for C6: a live connection is terminated by an event trace
exactly when the trace contains two sweeps with no pong between them; the
boolean argument of missedTwo records whether the liveness flag is
currently clear. -/
theorem runHB_missedTwo (es : List HBEvent) :
    ∀ c : ClientConn, c.terminated = false →
      (runHB c es).terminated = missedTwo (!c.isAlive) es := by
  induction es with
  | nil => intro c h; exact h
  | cons e es ih =>
    intro c h
    cases e with
    | pong =>
      have hstep : hbStep c HBEvent.pong = { c with isAlive := true } := by
        simp [hbStep, h]
      show (runHB (hbStep c HBEvent.pong) es).terminated = _
      rw [hstep]
      have h2 := ih { c with isAlive := true } (by simpa using h)
      simpa [missedTwo] using h2
    | sweep =>
      by_cases ha : c.isAlive
      · have hstep : hbStep c HBEvent.sweep = { c with isAlive := false } := by
          simp [hbStep, h, ha]
        show (runHB (hbStep c HBEvent.sweep) es).terminated = _
        rw [hstep]
        have h2 := ih { c with isAlive := false } (by simpa using h)
        simpa [missedTwo, ha] using h2
      · have ha2 : c.isAlive = false := by simpa using ha
        have hstep : hbStep c HBEvent.sweep = { c with terminated := true } := by
          simp [hbStep, h, ha2]
        show (runHB (hbStep c HBEvent.sweep) es).terminated = _
        rw [hstep, runHB_of_terminated es _ (by simp)]
        simp [missedTwo, ha2]

/-- C6: under the 30-second heartbeat, a fresh connection is terminated by
an event trace exactly when the trace has two consecutive sweeps with no
pong between them; a sweep finding the liveness flag false terminates the
connection, a pong restores the flag, one lone missed sweep does not
terminate, and a pong between two sweeps prevents termination. -/
theorem heartbeat_reaps_after_two_missed_sweeps (es : List HBEvent) :
    ((runHB freshConn es).terminated = missedTwo false es) ∧
    (∀ c : ClientConn, c.terminated = false → c.isAlive = false →
      (hbStep c HBEvent.sweep).terminated = true) ∧
    (∀ c : ClientConn, c.terminated = false →
      (hbStep c HBEvent.pong).isAlive = true) ∧
    ((runHB freshConn [HBEvent.sweep]).terminated = false) ∧
    ((runHB freshConn [HBEvent.sweep, HBEvent.sweep]).terminated = true) ∧
    ((runHB freshConn
        [HBEvent.sweep, HBEvent.pong, HBEvent.sweep]).terminated = false) := by
  refine ⟨?_, ?_, ?_, by decide, by decide, by decide⟩
  · simpa using runHB_missedTwo es freshConn rfl
  · intro c h ha
    simp [hbStep, h, ha]
  · intro c h
    simp [hbStep, h]

/-- Witness for C6 at a connection whose flag is already clear. -/
theorem heartbeat_reaps_witness :
    (hbStep ⟨false, false⟩ HBEvent.sweep).terminated = true :=
  (heartbeat_reaps_after_two_missed_sweeps []).2.1 ⟨false, false⟩ rfl rfl

/-- Helper for C7: no bridge event reopens the browser socket. -/
theorem runBridge_clientClosed_mono (es : List BridgeEvent) :
    ∀ s : BridgeState, s.clientOpen = false →
      (runBridge s es).clientOpen = false := by
  induction es with
  | nil => intro s h; exact h
  | cons e es ih =>
    intro s h
    show (runBridge (bridgeStep s e) es).clientOpen = false
    apply ih
    cases e <;> simp [bridgeStep, h]

/-- Helper for C7: once the upstream socket closes anywhere in the trace,
the browser socket ends up closed. -/
theorem runBridge_upstreamClose_closes_client (es : List BridgeEvent) :
    ∀ s : BridgeState, BridgeEvent.upstreamClose ∈ es →
      (runBridge s es).clientOpen = false := by
  induction es with
  | nil => intro s h; cases h
  | cons e es ih =>
    intro s h
    show (runBridge (bridgeStep s e) es).clientOpen = false
    rcases List.mem_cons.mp h with he | he
    · apply runBridge_clientClosed_mono
      rw [← he]
      rfl
    · exact ih _ he

/-- C7: the two lifetimes of a bridged pair are coupled: a close or an
error on the browser side closes the upstream socket, a close on the
upstream side closes the browser socket, and an upstream error is only
logged — the handler touches neither socket and the process keeps
running — while the close the ws library then emits on that socket (any
trace in which an upstream error is followed by an upstream close) leaves
the browser socket closed. -/
theorem bridge_lifetimes_coupled :
    (∀ s : BridgeState,
      (bridgeStep s BridgeEvent.clientClose).upstreamOpen = false) ∧
    (∀ s : BridgeState,
      (bridgeStep s BridgeEvent.clientError).upstreamOpen = false) ∧
    (∀ s : BridgeState,
      (bridgeStep s BridgeEvent.upstreamClose).clientOpen = false) ∧
    (∀ s : BridgeState,
      (bridgeStep s BridgeEvent.upstreamError).errorLog =
          s.errorLog ++ ["Traccar WebSocket error"] ∧
      (bridgeStep s BridgeEvent.upstreamError).clientOpen = s.clientOpen ∧
      (bridgeStep s BridgeEvent.upstreamError).upstreamOpen =
          s.upstreamOpen) ∧
    (∀ (es : List BridgeEvent) (s : BridgeState),
      (BridgeEvent.upstreamError ∈ es → BridgeEvent.upstreamClose ∈ es) →
      BridgeEvent.upstreamError ∈ es →
      (runBridge s es).clientOpen = false) := by
  refine ⟨fun s => rfl, fun s => rfl, fun s => rfl,
    fun s => ⟨rfl, rfl, rfl⟩, ?_⟩
  intro es s hlib herr
  exact runBridge_upstreamClose_closes_client es s (hlib herr)

/-- Witness for C7: an upstream error followed by the upstream close on a
fresh pair ends with the browser socket closed. -/
theorem bridge_lifetimes_coupled_witness :
    (runBridge bridgedPair
        [BridgeEvent.upstreamError, BridgeEvent.upstreamClose]).clientOpen =
      false :=
  bridge_lifetimes_coupled.2.2.2.2
    [BridgeEvent.upstreamError, BridgeEvent.upstreamClose] bridgedPair
    (by decide) (by decide)

/-- Helper for C2: a falsy (absent or empty) parameter short-circuits to
the missing-parameters 400. -/
theorem reportsRoute_missing (parseDate : String → Option Int) (now : Int)
    (deviceId fromS toS : Option String)
    (h : queryTruthy deviceId = false ∨ queryTruthy fromS = false ∨
         queryTruthy toS = false) :
    reportsRouteHandler parseDate now deviceId fromS toS =
      RouteResult.badRequest "Missing required parameters: deviceId, from, to" := by
  unfold reportsRouteHandler
  rcases h with h | h | h <;> simp [h]

/-- Helper for C2: parseInt NaN on deviceId short-circuits to the
invalid-deviceId 400. -/
theorem reportsRoute_invalid_id (parseDate : String → Option Int) (now : Int)
    (deviceId fromS toS : Option String)
    (hd : queryTruthy deviceId = true) (hf : queryTruthy fromS = true)
    (ht : queryTruthy toS = true)
    (hpi : jsParseInt (deviceId.getD "") = none) :
    reportsRouteHandler parseDate now deviceId fromS toS =
      RouteResult.badRequest "Invalid deviceId format" := by
  unfold reportsRouteHandler
  simp [hd, hf, ht, hpi]

/-- Helper for C2: a date that fails to parse short-circuits to the
invalid-date 400. -/
theorem reportsRoute_invalid_date (parseDate : String → Option Int)
    (now : Int) (deviceId fromS toS : Option String)
    (hd : queryTruthy deviceId = true) (hf : queryTruthy fromS = true)
    (ht : queryTruthy toS = true)
    (hpi : (jsParseInt (deviceId.getD "")).isSome = true)
    (hdate : parseDate (fromS.getD "") = none ∨
             parseDate (toS.getD "") = none) :
    reportsRouteHandler parseDate now deviceId fromS toS =
      RouteResult.badRequest "Invalid date format. Use ISO 8601 format." := by
  unfold reportsRouteHandler
  have hn : (jsParseInt (deviceId.getD "")).isNone = false := by
    cases hx : jsParseInt (deviceId.getD "") with
    | none => rw [hx] at hpi; simp at hpi
    | some v => rfl
  cases hf2 : parseDate (fromS.getD "") with
  | none => simp [hd, hf, ht, hn, hf2]
  | some fm =>
    cases ht2 : parseDate (toS.getD "") with
    | none => simp [hd, hf, ht, hn, hf2, ht2]
    | some tm => rw [hf2, ht2] at hdate; simp at hdate

/-- Helper for C2: from at or after to short-circuits to the ordering
400. -/
theorem reportsRoute_order (parseDate : String → Option Int) (now : Int)
    (deviceId fromS toS : Option String) (fromMs toMs : Int)
    (hd : queryTruthy deviceId = true) (hf : queryTruthy fromS = true)
    (ht : queryTruthy toS = true)
    (hpi : (jsParseInt (deviceId.getD "")).isSome = true)
    (hf2 : parseDate (fromS.getD "") = some fromMs)
    (ht2 : parseDate (toS.getD "") = some toMs)
    (hord : fromMs ≥ toMs) :
    reportsRouteHandler parseDate now deviceId fromS toS =
      RouteResult.badRequest "Start date must be before end date" := by
  unfold reportsRouteHandler
  have hn : (jsParseInt (deviceId.getD "")).isNone = false := by
    cases hx : jsParseInt (deviceId.getD "") with
    | none => rw [hx] at hpi; simp at hpi
    | some v => rfl
  simp [hd, hf, ht, hn, hf2, ht2, hord]

/-- Helper for C2: a range over 7 days short-circuits to the range 400. -/
theorem reportsRoute_range (parseDate : String → Option Int) (now : Int)
    (deviceId fromS toS : Option String) (fromMs toMs : Int)
    (hd : queryTruthy deviceId = true) (hf : queryTruthy fromS = true)
    (ht : queryTruthy toS = true)
    (hpi : (jsParseInt (deviceId.getD "")).isSome = true)
    (hf2 : parseDate (fromS.getD "") = some fromMs)
    (ht2 : parseDate (toS.getD "") = some toMs)
    (hord : fromMs < toMs) (hrange : toMs - fromMs > maxRange) :
    reportsRouteHandler parseDate now deviceId fromS toS =
      RouteResult.badRequest "Date range cannot exceed 7 days" := by
  unfold reportsRouteHandler
  have hn : (jsParseInt (deviceId.getD "")).isNone = false := by
    cases hx : jsParseInt (deviceId.getD "") with
    | none => rw [hx] at hpi; simp at hpi
    | some v => rfl
  have hord2 : ¬(fromMs ≥ toMs) := by omega
  simp [hd, hf, ht, hn, hf2, ht2, hord2, hrange]

/-- Helper for C2: an end instant in the future short-circuits to the
future-date 400. -/
theorem reportsRoute_future (parseDate : String → Option Int) (now : Int)
    (deviceId fromS toS : Option String) (fromMs toMs : Int)
    (hd : queryTruthy deviceId = true) (hf : queryTruthy fromS = true)
    (ht : queryTruthy toS = true)
    (hpi : (jsParseInt (deviceId.getD "")).isSome = true)
    (hf2 : parseDate (fromS.getD "") = some fromMs)
    (ht2 : parseDate (toS.getD "") = some toMs)
    (hord : fromMs < toMs) (hrange : ¬(toMs - fromMs > maxRange))
    (hfut : toMs > now) :
    reportsRouteHandler parseDate now deviceId fromS toS =
      RouteResult.badRequest "End date cannot be in the future" := by
  unfold reportsRouteHandler
  have hn : (jsParseInt (deviceId.getD "")).isNone = false := by
    cases hx : jsParseInt (deviceId.getD "") with
    | none => rw [hx] at hpi; simp at hpi
    | some v => rfl
  have hord2 : ¬(fromMs ≥ toMs) := by omega
  simp [hd, hf, ht, hn, hf2, ht2, hord2, hrange, hfut]

/-- Helper for C2: the handler reaches proxyToTraccar exactly when all six
checks pass. -/
theorem reportsRoute_proxy_iff (parseDate : String → Option Int) (now : Int)
    (deviceId fromS toS : Option String) :
    reportsRouteHandler parseDate now deviceId fromS toS =
        RouteResult.proxy ↔
      queryTruthy deviceId = true ∧ queryTruthy fromS = true ∧
      queryTruthy toS = true ∧
      (jsParseInt (deviceId.getD "")).isSome = true ∧
      ∃ fromMs toMs,
        parseDate (fromS.getD "") = some fromMs ∧
        parseDate (toS.getD "") = some toMs ∧
        fromMs < toMs ∧ toMs - fromMs ≤ maxRange ∧ toMs ≤ now := by
  constructor
  · intro h
    by_cases hd : queryTruthy deviceId = true
    case neg =>
      have hbad := reportsRoute_missing parseDate now deviceId fromS toS
        (Or.inl (by simpa using hd))
      exact absurd (hbad.symm.trans h) (by simp)
    by_cases hf : queryTruthy fromS = true
    case neg =>
      have hbad := reportsRoute_missing parseDate now deviceId fromS toS
        (Or.inr (Or.inl (by simpa using hf)))
      exact absurd (hbad.symm.trans h) (by simp)
    by_cases ht : queryTruthy toS = true
    case neg =>
      have hbad := reportsRoute_missing parseDate now deviceId fromS toS
        (Or.inr (Or.inr (by simpa using ht)))
      exact absurd (hbad.symm.trans h) (by simp)
    cases hpi : jsParseInt (deviceId.getD "") with
    | none =>
      have hbad := reportsRoute_invalid_id parseDate now deviceId fromS toS
        hd hf ht hpi
      exact absurd (hbad.symm.trans h) (by simp)
    | some v =>
      have hs : (jsParseInt (deviceId.getD "")).isSome = true := by
        rw [hpi]
        rfl
      cases hf2 : parseDate (fromS.getD "") with
      | none =>
        have hbad := reportsRoute_invalid_date parseDate now deviceId fromS
          toS hd hf ht hs (Or.inl hf2)
        exact absurd (hbad.symm.trans h) (by simp)
      | some fm =>
        cases ht2 : parseDate (toS.getD "") with
        | none =>
          have hbad := reportsRoute_invalid_date parseDate now deviceId
            fromS toS hd hf ht hs (Or.inr ht2)
          exact absurd (hbad.symm.trans h) (by simp)
        | some tm =>
          have hlt : fm < tm := by
            by_contra hx
            have hbad := reportsRoute_order parseDate now deviceId fromS toS
              fm tm hd hf ht hs hf2 ht2 (not_lt.mp hx)
            exact absurd (hbad.symm.trans h) (by simp)
          have hrange : ¬(tm - fm > maxRange) := by
            intro hx
            have hbad := reportsRoute_range parseDate now deviceId fromS toS
              fm tm hd hf ht hs hf2 ht2 hlt hx
            exact absurd (hbad.symm.trans h) (by simp)
          have hnow : ¬(tm > now) := by
            intro hx
            have hbad := reportsRoute_future parseDate now deviceId fromS toS
              fm tm hd hf ht hs hf2 ht2 hlt hrange hx
            exact absurd (hbad.symm.trans h) (by simp)
          exact ⟨hd, hf, ht, rfl, fm, tm, rfl, rfl, hlt,
            not_lt.mp hrange, not_lt.mp hnow⟩
  · rintro ⟨hd, hf, ht, hs, fm, tm, hf2, ht2, hlt, hrange, hnow⟩
    unfold reportsRouteHandler
    rw [if_neg (by simp [hd, hf, ht])]
    obtain ⟨v, hv⟩ := Option.isSome_iff_exists.mp hs
    rw [if_neg (by simp [hv])]
    rw [hf2, ht2]
    show (if fm ≥ tm then
            RouteResult.badRequest "Start date must be before end date"
          else if tm - fm > maxRange then
            RouteResult.badRequest "Date range cannot exceed 7 days"
          else if tm > now then
            RouteResult.badRequest "End date cannot be in the future"
          else RouteResult.proxy) = RouteResult.proxy
    rw [if_neg (not_le.mpr hlt), if_neg (not_lt.mpr hrange),
      if_neg (not_lt.mpr hnow)]

/-- C2: the /api/reports/route validator applies its six checks in source
order and short-circuits on the first failure with the message of that
check;
the request reaches the upstream relay exactly when all six checks pass;
and any query whose parsed end is at or before its parsed start is
answered 400 (some message) and never reaches the relay. -/
theorem route_validation_chain (parseDate : String → Option Int) (now : Int)
    (deviceId fromS toS : Option String) :
    (reportsRouteHandler parseDate now deviceId fromS toS =
        RouteResult.proxy ↔
      queryTruthy deviceId = true ∧ queryTruthy fromS = true ∧
      queryTruthy toS = true ∧
      (jsParseInt (deviceId.getD "")).isSome = true ∧
      ∃ fromMs toMs,
        parseDate (fromS.getD "") = some fromMs ∧
        parseDate (toS.getD "") = some toMs ∧
        fromMs < toMs ∧ toMs - fromMs ≤ maxRange ∧ toMs ≤ now) ∧
    ((queryTruthy deviceId = false ∨ queryTruthy fromS = false ∨
        queryTruthy toS = false) →
      reportsRouteHandler parseDate now deviceId fromS toS =
        RouteResult.badRequest
          "Missing required parameters: deviceId, from, to") ∧
    (queryTruthy deviceId = true → queryTruthy fromS = true →
      queryTruthy toS = true → jsParseInt (deviceId.getD "") = none →
      reportsRouteHandler parseDate now deviceId fromS toS =
        RouteResult.badRequest "Invalid deviceId format") ∧
    (queryTruthy deviceId = true → queryTruthy fromS = true →
      queryTruthy toS = true →
      (jsParseInt (deviceId.getD "")).isSome = true →
      (parseDate (fromS.getD "") = none ∨ parseDate (toS.getD "") = none) →
      reportsRouteHandler parseDate now deviceId fromS toS =
        RouteResult.badRequest
          "Invalid date format. Use ISO 8601 format.") ∧
    (∀ fromMs toMs : Int, queryTruthy deviceId = true →
      queryTruthy fromS = true → queryTruthy toS = true →
      (jsParseInt (deviceId.getD "")).isSome = true →
      parseDate (fromS.getD "") = some fromMs →
      parseDate (toS.getD "") = some toMs → fromMs ≥ toMs →
      reportsRouteHandler parseDate now deviceId fromS toS =
        RouteResult.badRequest "Start date must be before end date") ∧
    (∀ fromMs toMs : Int, queryTruthy deviceId = true →
      queryTruthy fromS = true → queryTruthy toS = true →
      (jsParseInt (deviceId.getD "")).isSome = true →
      parseDate (fromS.getD "") = some fromMs →
      parseDate (toS.getD "") = some toMs → fromMs < toMs →
      toMs - fromMs > maxRange →
      reportsRouteHandler parseDate now deviceId fromS toS =
        RouteResult.badRequest "Date range cannot exceed 7 days") ∧
    (∀ fromMs toMs : Int, queryTruthy deviceId = true →
      queryTruthy fromS = true → queryTruthy toS = true →
      (jsParseInt (deviceId.getD "")).isSome = true →
      parseDate (fromS.getD "") = some fromMs →
      parseDate (toS.getD "") = some toMs → fromMs < toMs →
      ¬(toMs - fromMs > maxRange) → toMs > now →
      reportsRouteHandler parseDate now deviceId fromS toS =
        RouteResult.badRequest "End date cannot be in the future") ∧
    (∀ fromMs toMs : Int,
      parseDate (fromS.getD "") = some fromMs →
      parseDate (toS.getD "") = some toMs → toMs ≤ fromMs →
      reportsRouteHandler parseDate now deviceId fromS toS ≠
        RouteResult.proxy) := by
  refine ⟨reportsRoute_proxy_iff parseDate now deviceId fromS toS,
    reportsRoute_missing parseDate now deviceId fromS toS,
    reportsRoute_invalid_id parseDate now deviceId fromS toS,
    reportsRoute_invalid_date parseDate now deviceId fromS toS,
    fun fromMs toMs hd hf ht hpi hf2 ht2 hord =>
      reportsRoute_order parseDate now deviceId fromS toS fromMs toMs
        hd hf ht hpi hf2 ht2 hord,
    fun fromMs toMs hd hf ht hpi hf2 ht2 hord hrange =>
      reportsRoute_range parseDate now deviceId fromS toS fromMs toMs
        hd hf ht hpi hf2 ht2 hord hrange,
    fun fromMs toMs hd hf ht hpi hf2 ht2 hord hrange hfut =>
      reportsRoute_future parseDate now deviceId fromS toS fromMs toMs
        hd hf ht hpi hf2 ht2 hord hrange hfut,
    ?_⟩
  intro fromMs toMs hf2 ht2 hle hproxy
  obtain ⟨_, _, _, _, fm, tm, hf3, ht3, hlt, _, _⟩ :=
    (reportsRoute_proxy_iff parseDate now deviceId fromS toS).mp hproxy
  rw [hf2] at hf3
  rw [ht2] at ht3
  obtain rfl : fromMs = fm := Option.some.inj hf3
  obtain rfl : toMs = tm := Option.some.inj ht3
  omega

/-- Witness for C2: a query with from after to is answered 400 and does
not reach the relay. -/
theorem route_validation_chain_witness :
    reportsRouteHandler sampleParseDate 1704100000000 (some "5")
        (some "2024-01-01T08:00:00Z") (some "2024-01-01T00:00:00Z") ≠
      RouteResult.proxy :=
  (route_validation_chain sampleParseDate 1704100000000 (some "5")
      (some "2024-01-01T08:00:00Z")
      (some "2024-01-01T00:00:00Z")).2.2.2.2.2.2.2
    1704096000000 1704067200000 (by decide) (by decide) (by decide)

/-- C3 counterexample: the string "7x" is not an integer numeral, yet a
history request with deviceId = "7x" passes the deviceId check — and the
whole validation — because parseInt("7x") = 7 is not NaN. -/
theorem deviceId_noninteger_passes :
    reportsRouteHandler sampleParseDate 1704100000000 (some "7x")
        (some "2024-01-01T00:00:00Z") (some "2024-01-01T08:00:00Z") =
      RouteResult.proxy ∧
    isIntegerString "7x" = false := by decide

/-- C3 amended: with the three parameters present, the validator answers
the invalid-deviceId 400 exactly when JavaScript parseInt yields NaN on
the deviceId string (no leading integer numeral after optional white
space and sign, or 0x prefix); a string with an integer numeral prefix
followed by junk, such as "7x", passes the check. -/
theorem deviceId_check_is_parseInt (parseDate : String → Option Int)
    (now : Int) (deviceId fromS toS : Option String)
    (hd : queryTruthy deviceId = true) (hf : queryTruthy fromS = true)
    (ht : queryTruthy toS = true) :
    (jsParseInt (deviceId.getD "") = none →
      reportsRouteHandler parseDate now deviceId fromS toS =
        RouteResult.badRequest "Invalid deviceId format") ∧
    (∀ v : Int, jsParseInt (deviceId.getD "") = some v →
      reportsRouteHandler parseDate now deviceId fromS toS ≠
        RouteResult.badRequest "Invalid deviceId format") := by
  constructor
  · exact reportsRoute_invalid_id parseDate now deviceId fromS toS hd hf ht
  · intro v hv
    unfold reportsRouteHandler
    simp only [hd, hf, ht, hv, Bool.not_true, Bool.false_or,
      Option.isNone_some, Bool.false_eq_true, if_false, Bool.or_self]
    cases parseDate (fromS.getD "") with
    | none =>
      cases parseDate (toS.getD "") <;> simp
    | some fm =>
      cases parseDate (toS.getD "") with
      | none => simp
      | some tm =>
        show (if fm ≥ tm then
                RouteResult.badRequest "Start date must be before end date"
              else if tm - fm > maxRange then
                RouteResult.badRequest "Date range cannot exceed 7 days"
              else if tm > now then
                RouteResult.badRequest "End date cannot be in the future"
              else RouteResult.proxy) ≠
          RouteResult.badRequest "Invalid deviceId format"
        split_ifs <;> decide

/-- Witness for the amended C3: deviceId "7x" is not rejected by the
deviceId check. -/
theorem deviceId_check_is_parseInt_witness :
    reportsRouteHandler sampleParseDate 1704100000000 (some "7x")
        (some "2024-01-01T00:00:00Z") (some "2024-01-01T08:00:00Z") ≠
      RouteResult.badRequest "Invalid deviceId format" :=
  (deviceId_check_is_parseInt sampleParseDate 1704100000000 (some "7x")
      (some "2024-01-01T00:00:00Z") (some "2024-01-01T08:00:00Z")
      (by decide) (by decide) (by decide)).2 7 (by decide)

/-- Helper for C8: the decoder loop processes one byte at a time. -/
theorem utf8DecodeLoop_cons (st : Option Utf8Pending) (b : Nat)
    (bs : List Nat) :
    utf8DecodeLoop st (b :: bs) =
      (utf8Step st b).1 ++ utf8DecodeLoop (utf8Step st b).2 bs := rfl

/-- Helper for C8: an ASCII byte is emitted directly. -/
theorem utf8Step_ascii (b : Nat) (h : b ≤ 0x7F) :
    utf8Step none b = ([b], none) := by
  unfold utf8Step utf8InitByte
  rw [if_pos h]

/-- Helper for C8: a two-byte lead opens a one-continuation sequence. -/
theorem utf8Step_lead2 (b : Nat) (h : 0xC2 ≤ b ∧ b ≤ 0xDF) :
    utf8Step none b = ([], some ⟨1, b - 0xC0, 0x80, 0xBF⟩) := by
  unfold utf8Step utf8InitByte
  rw [if_neg (by omega), if_pos h]

/-- Helper for C8: the lead byte E0 with its tightened second-byte range. -/
theorem utf8Step_leadE0 :
    utf8Step none 0xE0 = ([], some ⟨2, 0, 0xA0, 0xBF⟩) := by
  unfold utf8Step utf8InitByte
  rw [if_neg (by omega), if_neg (by omega), if_pos rfl]

/-- Helper for C8: the lead byte ED with its surrogate-excluding range. -/
theorem utf8Step_leadED :
    utf8Step none 0xED = ([], some ⟨2, 13, 0x80, 0x9F⟩) := by
  unfold utf8Step utf8InitByte
  rw [if_neg (by omega), if_neg (by omega), if_neg (by omega), if_pos rfl]

/-- Helper for C8: the remaining three-byte lead bytes. -/
theorem utf8Step_lead3 (b : Nat) (h : 0xE1 ≤ b ∧ b ≤ 0xEF) (h0 : b ≠ 0xE0)
    (hD : b ≠ 0xED) :
    utf8Step none b = ([], some ⟨2, b - 0xE0, 0x80, 0xBF⟩) := by
  unfold utf8Step utf8InitByte
  rw [if_neg (by omega), if_neg (by omega), if_neg h0, if_neg hD, if_pos h]

/-- Helper for C8: the lead byte F0 with its tightened second-byte range. -/
theorem utf8Step_leadF0 :
    utf8Step none 0xF0 = ([], some ⟨3, 0, 0x90, 0xBF⟩) := by
  unfold utf8Step utf8InitByte
  rw [if_neg (by omega), if_neg (by omega), if_neg (by omega),
    if_neg (by omega), if_neg (by omega), if_pos rfl]

/-- Helper for C8: the lead byte F4 with its plane-16-capping range. -/
theorem utf8Step_leadF4 :
    utf8Step none 0xF4 = ([], some ⟨3, 4, 0x80, 0x8F⟩) := by
  unfold utf8Step utf8InitByte
  rw [if_neg (by omega), if_neg (by omega), if_neg (by omega),
    if_neg (by omega), if_neg (by omega), if_neg (by omega), if_pos rfl]

/-- Helper for C8: the lead bytes F1 through F3. -/
theorem utf8Step_lead4 (b : Nat) (h : 0xF1 ≤ b ∧ b ≤ 0xF3) :
    utf8Step none b = ([], some ⟨3, b - 0xF0, 0x80, 0xBF⟩) := by
  unfold utf8Step utf8InitByte
  rw [if_neg (by omega), if_neg (by omega), if_neg (by omega),
    if_neg (by omega), if_neg (by omega), if_neg (by omega),
    if_neg (by omega), if_pos h]

/-- Helper for C8: an in-range continuation byte of an unfinished sequence
extends the accumulator. -/
theorem utf8Step_cont (needed needed2 acc lo hi b : Nat)
    (h : lo ≤ b ∧ b ≤ hi) (h1 : needed ≠ 1) (h2 : needed - 1 = needed2) :
    utf8Step (some ⟨needed, acc, lo, hi⟩) b =
      ([], some ⟨needed2, acc * 64 + (b - 0x80), 0x80, 0xBF⟩) := by
  subst h2
  unfold utf8Step
  dsimp only
  rw [if_pos h, if_neg h1]

/-- Helper for C8: the final in-range continuation byte emits the code
point. -/
theorem utf8Step_last (acc lo hi b : Nat) (h : lo ≤ b ∧ b ≤ hi) :
    utf8Step (some ⟨1, acc, lo, hi⟩) b = ([acc * 64 + (b - 0x80)], none) := by
  unfold utf8Step
  dsimp only
  rw [if_pos h, if_pos rfl]

/-- Helper for C8: decoding the UTF-8 encoding of one valid scalar value
consumes exactly its bytes and emits exactly that value. -/
theorem utf8DecodeLoop_encodeChar (v : Nat) (hv : Nat.isValidChar v)
    (rest : List Nat) :
    utf8DecodeLoop none (utf8EncodeChar v ++ rest) =
      v :: utf8DecodeLoop none rest := by
  have hv2 : v < 0xd800 ∨ (0xdfff < v ∧ v < 0x110000) := hv
  unfold utf8EncodeChar
  by_cases h1 : v < 0x80
  · rw [if_pos h1]
    show utf8DecodeLoop none (v :: rest) = _
    rw [utf8DecodeLoop_cons, utf8Step_ascii _ (by omega)]
    rfl
  · rw [if_neg h1]
    by_cases h2 : v < 0x800
    · rw [if_pos h2]
      show utf8DecodeLoop none (_ :: _ :: rest) = _
      rw [utf8DecodeLoop_cons, utf8Step_lead2 _ ⟨by omega, by omega⟩]
      dsimp only
      rw [utf8DecodeLoop_cons,
        utf8Step_last (0xC0 + v / 64 - 0xC0) 0x80 0xBF _
          ⟨by omega, by omega⟩]
      dsimp only
      rw [show (0xC0 + v / 64 - 0xC0) * 64 + (0x80 + v % 64 - 0x80) = v by
        omega]
      rfl
    · rw [if_neg h2]
      by_cases h3 : v < 0x10000
      · rw [if_pos h3]
        show utf8DecodeLoop none (_ :: _ :: _ :: rest) = _
        by_cases hA : v < 0x1000
        · rw [show 0xE0 + v / 4096 = 0xE0 by omega,
            utf8DecodeLoop_cons, utf8Step_leadE0]
          dsimp only
          rw [utf8DecodeLoop_cons,
            utf8Step_cont 2 1 0 0xA0 0xBF _ ⟨by omega, by omega⟩
              (by omega) rfl]
          dsimp only
          rw [utf8DecodeLoop_cons,
            utf8Step_last (0 * 64 + (0x80 + v / 64 % 64 - 0x80)) 0x80 0xBF _
              ⟨by omega, by omega⟩]
          dsimp only
          rw [show (0 * 64 + (0x80 + v / 64 % 64 - 0x80)) * 64 +
              (0x80 + v % 64 - 0x80) = v by omega]
          rfl
        · by_cases hB : 0xD000 ≤ v ∧ v < 0xE000
          · have hsur : v < 0xD800 := by omega
            rw [show 0xE0 + v / 4096 = 0xED by omega,
              utf8DecodeLoop_cons, utf8Step_leadED]
            dsimp only
            rw [utf8DecodeLoop_cons,
              utf8Step_cont 2 1 13 0x80 0x9F _ ⟨by omega, by omega⟩
                (by omega) rfl]
            dsimp only
            rw [utf8DecodeLoop_cons,
              utf8Step_last (13 * 64 + (0x80 + v / 64 % 64 - 0x80))
                0x80 0xBF _ ⟨by omega, by omega⟩]
            dsimp only
            rw [show (13 * 64 + (0x80 + v / 64 % 64 - 0x80)) * 64 +
                (0x80 + v % 64 - 0x80) = v by omega]
            rfl
          · rw [utf8DecodeLoop_cons,
              utf8Step_lead3 _ ⟨by omega, by omega⟩ (by omega) (by omega)]
            dsimp only
            rw [utf8DecodeLoop_cons,
              utf8Step_cont 2 1 (0xE0 + v / 4096 - 0xE0) 0x80 0xBF _
                ⟨by omega, by omega⟩ (by omega) rfl]
            dsimp only
            rw [utf8DecodeLoop_cons,
              utf8Step_last ((0xE0 + v / 4096 - 0xE0) * 64 +
                (0x80 + v / 64 % 64 - 0x80)) 0x80 0xBF _
                ⟨by omega, by omega⟩]
            dsimp only
            rw [show ((0xE0 + v / 4096 - 0xE0) * 64 +
                (0x80 + v / 64 % 64 - 0x80)) * 64 +
                (0x80 + v % 64 - 0x80) = v by omega]
            rfl
      · rw [if_neg h3]
        have h4 : 0x10000 ≤ v ∧ v < 0x110000 := by omega
        show utf8DecodeLoop none (_ :: _ :: _ :: _ :: rest) = _
        by_cases hA : v < 0x40000
        · rw [show 0xF0 + v / 262144 = 0xF0 by omega,
            utf8DecodeLoop_cons, utf8Step_leadF0]
          dsimp only
          rw [utf8DecodeLoop_cons,
            utf8Step_cont 3 2 0 0x90 0xBF _ ⟨by omega, by omega⟩
              (by omega) rfl]
          dsimp only
          rw [utf8DecodeLoop_cons,
            utf8Step_cont 2 1 (0 * 64 + (0x80 + v / 4096 % 64 - 0x80))
              0x80 0xBF _ ⟨by omega, by omega⟩ (by omega) rfl]
          dsimp only
          rw [utf8DecodeLoop_cons,
            utf8Step_last ((0 * 64 + (0x80 + v / 4096 % 64 - 0x80)) * 64 +
              (0x80 + v / 64 % 64 - 0x80)) 0x80 0xBF _
              ⟨by omega, by omega⟩]
          dsimp only
          rw [show ((0 * 64 + (0x80 + v / 4096 % 64 - 0x80)) * 64 +
              (0x80 + v / 64 % 64 - 0x80)) * 64 +
              (0x80 + v % 64 - 0x80) = v by omega]
          rfl
        · by_cases hB : 0x100000 ≤ v
          · rw [show 0xF0 + v / 262144 = 0xF4 by omega,
              utf8DecodeLoop_cons, utf8Step_leadF4]
            dsimp only
            rw [utf8DecodeLoop_cons,
              utf8Step_cont 3 2 4 0x80 0x8F _ ⟨by omega, by omega⟩
                (by omega) rfl]
            dsimp only
            rw [utf8DecodeLoop_cons,
              utf8Step_cont 2 1 (4 * 64 + (0x80 + v / 4096 % 64 - 0x80))
                0x80 0xBF _ ⟨by omega, by omega⟩ (by omega) rfl]
            dsimp only
            rw [utf8DecodeLoop_cons,
              utf8Step_last ((4 * 64 + (0x80 + v / 4096 % 64 - 0x80)) * 64 +
                (0x80 + v / 64 % 64 - 0x80)) 0x80 0xBF _
                ⟨by omega, by omega⟩]
            dsimp only
            rw [show ((4 * 64 + (0x80 + v / 4096 % 64 - 0x80)) * 64 +
                (0x80 + v / 64 % 64 - 0x80)) * 64 +
                (0x80 + v % 64 - 0x80) = v by omega]
            rfl
          · rw [utf8DecodeLoop_cons, utf8Step_lead4 _ ⟨by omega, by omega⟩]
            dsimp only
            rw [utf8DecodeLoop_cons,
              utf8Step_cont 3 2 (0xF0 + v / 262144 - 0xF0) 0x80 0xBF _
                ⟨by omega, by omega⟩ (by omega) rfl]
            dsimp only
            rw [utf8DecodeLoop_cons,
              utf8Step_cont 2 1 ((0xF0 + v / 262144 - 0xF0) * 64 +
                (0x80 + v / 4096 % 64 - 0x80)) 0x80 0xBF _
                ⟨by omega, by omega⟩ (by omega) rfl]
            dsimp only
            rw [utf8DecodeLoop_cons,
              utf8Step_last (((0xF0 + v / 262144 - 0xF0) * 64 +
                (0x80 + v / 4096 % 64 - 0x80)) * 64 +
                (0x80 + v / 64 % 64 - 0x80)) 0x80 0xBF _
                ⟨by omega, by omega⟩]
            dsimp only
            rw [show (((0xF0 + v / 262144 - 0xF0) * 64 +
                (0x80 + v / 4096 % 64 - 0x80)) * 64 +
                (0x80 + v / 64 % 64 - 0x80)) * 64 +
                (0x80 + v % 64 - 0x80) = v by omega]
            rfl

/-- Helper for C8: decoding the UTF-8 encoding of a string recovers
exactly its scalar values. -/
theorem utf8DecodeLoop_encode (s : List Char) :
    utf8DecodeLoop none (utf8Encode s) = s.map Char.toNat := by
  induction s with
  | nil => rfl
  | cons c cs ih =>
    show utf8DecodeLoop none (utf8EncodeChar c.toNat ++ utf8Encode cs) = _
    rw [utf8DecodeLoop_encodeChar c.toNat c.valid, ih]
    rfl

/-- C8 counterexample: the proxy runs the received buffer through
data.toString() before sending, so a one-byte upstream message 0xFF (not
valid UTF-8) is delivered as the three-byte UTF-8 encoding of U+FFFD, not
byte-for-byte. -/
theorem forward_transcodes_invalid_utf8 :
    forwardMessage true [255] = some [239, 191, 189] ∧
    forwardMessage true [255] ≠ some [255] := by decide

/-- C8 amended: every upstream message whose payload is the UTF-8 encoding
of a text string — in particular every text frame, which is all the
upstream sends — is delivered to an open browser client byte-for-byte
identical; the proxy converts the buffer to a string and back, so only
payloads that are not valid UTF-8 would be altered (transcoded with
replacement characters); a message arriving when the client socket is not
open is dropped. -/
theorem forward_valid_text_identity (s : List Char) :
    forwardMessage true (utf8Encode s) = some (utf8Encode s) ∧
    forwardMessage false (utf8Encode s) = none := by
  refine ⟨?_, rfl⟩
  unfold forwardMessage bufferToString
  rw [if_pos rfl, utf8DecodeLoop_encode, List.map_map]
  have hcomp : s.map (Char.ofNat ∘ Char.toNat) = s := by
    rw [show Char.ofNat ∘ Char.toNat = id from
      funext (fun c => Char.ofNat_toNat c), List.map_id]
  rw [hcomp]

end GpsTracker
